import Mathlib

/-!
Shallow embedding of the StreamView authentication module
(`src/video_streaming_backend`): the data model (`src/db/models.py`),
the JWT helpers (`src/security/jwt.py`), the password helpers
(`src/security/passwords.py`), the auth routes
(`src/api/routers/auth.py`) and the current-user dependency
(`src/api/deps/auth.py`).

Modelling conventions:
- The database is an explicit `Store` value (lists of user rows and
  refresh-token rows); SQLAlchemy queries become list lookups with exact
  string equality (PostgreSQL's default case-sensitive collation).
- Timestamps are integers (epoch seconds); `datetime.now` becomes an
  explicit `now` parameter.
- Randomness (`secrets.token_urlsafe`) and autoincrement ids
  (`db.flush`) become explicit parameters (`freshTok`, `newId`); the
  database's unique index on `refresh_tokens.token` is modelled as a
  freshness hypothesis on theorems.
- A signed JWT is modelled as its payload paired with the secret it was
  signed with; `decode_token` checks the secret and the expiry, the way
  PyJWT verifies the signature and the `exp` claim.
- bcrypt hashing (an external library) is modelled as an injective
  constructor, which is exactly the contract the code relies on.
- Each route returns the successor store together with an
  `Except ErrorResponse α`; a raised `HTTPException` carries its status
  code and its `detail` string, both observable to the API caller.
-/

deriving instance DecidableEq for Except

namespace StreamView

/-- `src/db/models.py` `UserRole`. -/
inductive UserRole where
  | user
  | admin
deriving DecidableEq, Repr

/-- `UserRole.value` (the string stored and returned to clients). -/
def UserRole.value : UserRole → String
  | .user => "user"
  | .admin => "admin"

/-- Model of a bcrypt hash (`src/security/passwords.py hash_password`):
an opaque value determined by the password. -/
structure PasswordHash where
  ofPassword : String
deriving DecidableEq, Repr

/-- `src/security/passwords.py hash_password` (bcrypt, modelled as the
injective wrapper `PasswordHash`). -/
def hash_password (password : String) : PasswordHash :=
  ⟨password⟩

/-- `src/security/passwords.py verify_password`: true iff the password
matches the stored hash (the bcrypt contract). -/
def verify_password (password : String) (passwordHash : PasswordHash) : Bool :=
  hash_password password == passwordHash

/-- `src/db/models.py` `User` row (the columns the auth flows read). -/
structure UserRec where
  id : Nat
  email : String
  password_hash : PasswordHash
  role : UserRole
  is_active : Bool
deriving DecidableEq, Repr

/-- `src/db/models.py` `RefreshToken` row. -/
structure RefreshTokenRec where
  id : Nat
  token : String
  user_id : Nat
  expires_at : Int
  revoked : Bool
deriving DecidableEq, Repr

/-- The relational store: `users` and `refresh_tokens` tables. -/
structure Store where
  users : List UserRec
  refresh_tokens : List RefreshTokenRec
deriving DecidableEq, Repr

/-- The token strings present in the `refresh_tokens` table. -/
def Store.tokenStrings (s : Store) : List String :=
  s.refresh_tokens.map (·.token)

/-- Application settings (`src/settings.py`), reduced to the fields the
auth flows read. `refreshTtl` is `refresh_token_expire_days` and
`accessTtl` is `access_token_expire_minutes`, both converted to seconds. -/
structure Settings where
  jwt_secret : String
  accessTtl : Int
  refreshTtl : Int
deriving DecidableEq, Repr

/-- JWT claims produced by `create_access_token`
(`src/security/jwt.py`): subject, type discriminator, issued-at,
expiry, plus the `role` extra claim the routes pass in. -/
structure JwtPayload where
  sub : String
  typ : String
  iat : Int
  exp : Int
  role : String
deriving DecidableEq, Repr

/-- A signed JWT: its payload together with the signing secret
(standing for the HMAC signature). -/
structure Jwt where
  payload : JwtPayload
  secret : String
deriving DecidableEq, Repr

/-- Errors raised by PyJWT during `decode_token`. -/
inductive JwtError where
  | invalidSignature
  | expired
deriving DecidableEq, Repr

/-- `src/security/jwt.py create_access_token`. -/
def create_access_token (cfg : Settings) (subject : String) (role : String)
    (now : Int) : Jwt :=
  ⟨⟨subject, "access", now, now + cfg.accessTtl, role⟩, cfg.jwt_secret⟩

/-- `src/security/jwt.py decode_token`: PyJWT verifies the signature
against the configured secret and rejects an expired `exp` claim. -/
def decode_token (cfg : Settings) (t : Jwt) (now : Int) :
    Except JwtError JwtPayload :=
  if t.secret ≠ cfg.jwt_secret then .error .invalidSignature
  else if t.payload.exp ≤ now then .error .expired
  else .ok t.payload

/-- An `HTTPException` as the API caller observes it: status code and
`detail` string. -/
structure ErrorResponse where
  status_code : Nat
  detail : String
deriving DecidableEq, Repr

/-- `UserPublic` schema (`src/api/schemas/auth.py`). -/
structure UserPublic where
  id : Nat
  email : String
  role : String
deriving DecidableEq, Repr

/-- `TokenPairResponse` schema (`src/api/schemas/auth.py`). -/
structure TokenPairResponse where
  access_token : Jwt
  refresh_token : String
  token_type : String
  expires_in : Int
  user : UserPublic
deriving DecidableEq, Repr

/-- Python `str.lower()` as applied to email strings: per-character
ASCII case folding. -/
def pyLower (s : String) : String := ⟨s.data.map Char.toLower⟩

/-- `src/api/routers/auth.py _get_user_by_email`: exact-match lookup
`select(User).where(User.email == email)`. -/
def _get_user_by_email (s : Store) (email : String) : Option UserRec :=
  s.users.find? (fun u => u.email == email)

/-- `db.get(User, user_id)` primary-key lookup. -/
def getUserById (s : Store) (uid : Int) : Option UserRec :=
  s.users.find? (fun u => (u.id : Int) == uid)

/-- `select(RefreshToken).where(RefreshToken.token == token)`. -/
def findRefreshToken (s : Store) (tok : String) : Option RefreshTokenRec :=
  s.refresh_tokens.find? (fun rt => rt.token == tok)

/-- `src/api/routers/auth.py _issue_refresh_token`: persist a new row
with `expires_at = now + refresh_ttl` and `revoked = False`. The random
token string and the autoincrement id are the explicit parameters
`freshTok` and `newId`. -/
def _issue_refresh_token (s : Store) (u : UserRec) (freshTok : String)
    (now ttl : Int) (newId : Nat) : Store :=
  { s with refresh_tokens :=
      s.refresh_tokens ++ [⟨newId, freshTok, u.id, now + ttl, false⟩] }

/-- `src/api/routers/auth.py _revoke_refresh_token` applied to the row
holding `tok`: sets `revoked = True` on it (the unique index on
`refresh_tokens.token` makes at most one row match). -/
def revokeByToken (l : List RefreshTokenRec) (tok : String) :
    List RefreshTokenRec :=
  l.map (fun rt => if rt.token == tok then { rt with revoked := true } else rt)

/-- `src/api/routers/auth.py _to_user_public`. -/
def _to_user_public (u : UserRec) : UserPublic :=
  ⟨u.id, u.email, u.role.value⟩

/-- `src/api/routers/auth.py _token_response`. -/
def _token_response (cfg : Settings) (u : UserRec) (refreshToken : String)
    (now : Int) : TokenPairResponse :=
  { access_token := create_access_token cfg (toString u.id) u.role.value now
    refresh_token := refreshToken
    token_type := "bearer"
    expires_in := cfg.accessTtl
    user := _to_user_public u }

/-- The refresh-token validation steps of `refresh`
(`src/api/routers/auth.py` lines 173-182): exact lookup, then the
revoked check, then the expiry check, each failure raising a 401 with
its own detail string. -/
def validateRefreshToken (s : Store) (tok : String) (now : Int) :
    Except ErrorResponse RefreshTokenRec :=
  match findRefreshToken s tok with
  | none => .error ⟨401, "Invalid refresh token"⟩
  | some rt =>
    if rt.revoked then .error ⟨401, "Refresh token revoked"⟩
    else if rt.expires_at ≤ now then .error ⟨401, "Refresh token expired"⟩
    else .ok rt

/-- `src/api/routers/auth.py register`. Note: the duplicate lookup uses
`payload.email` as received, while the stored email is
`str(payload.email).lower()`. -/
def register (cfg : Settings) (s : Store) (email password : String)
    (now : Int) (freshTok : String) (newUserId newRtId : Nat) :
    Store × Except ErrorResponse TokenPairResponse :=
  match _get_user_by_email s email with
  | some _ => (s, .error ⟨409, "Email already registered"⟩)
  | none =>
    let user : UserRec :=
      ⟨newUserId, pyLower email, hash_password password, UserRole.user, true⟩
    let s1 : Store := { s with users := s.users ++ [user] }
    let s2 := _issue_refresh_token s1 user freshTok now cfg.refreshTtl newRtId
    (s2, .ok (_token_response cfg user freshTok now))

/-- `src/api/routers/auth.py login`. -/
def login (cfg : Settings) (s : Store) (email password : String)
    (now : Int) (freshTok : String) (newRtId : Nat) :
    Store × Except ErrorResponse TokenPairResponse :=
  match _get_user_by_email s (pyLower email) with
  | none => (s, .error ⟨401, "Invalid credentials"⟩)
  | some user =>
    if ¬ user.is_active then (s, .error ⟨401, "Invalid credentials"⟩)
    else if ¬ verify_password password user.password_hash then
      (s, .error ⟨401, "Invalid credentials"⟩)
    else
      (_issue_refresh_token s user freshTok now cfg.refreshTtl newRtId,
       .ok (_token_response cfg user freshTok now))

/-- `src/api/routers/auth.py refresh`: validate the presented token,
look up its owner, then rotate (revoke old, issue new) and commit. -/
def refresh (cfg : Settings) (s : Store) (presented : String) (now : Int)
    (freshTok : String) (newRtId : Nat) :
    Store × Except ErrorResponse TokenPairResponse :=
  match validateRefreshToken s presented now with
  | .error e => (s, .error e)
  | .ok rt =>
    match getUserById s (rt.user_id : Int) with
    | none => (s, .error ⟨401, "User not found or inactive"⟩)
    | some user =>
      if ¬ user.is_active then (s, .error ⟨401, "User not found or inactive"⟩)
      else
        let s1 : Store :=
          { s with refresh_tokens := revokeByToken s.refresh_tokens presented }
        let s2 := _issue_refresh_token s1 user freshTok now cfg.refreshTtl newRtId
        (s2, .ok (_token_response cfg user freshTok now))

/-- `src/api/routers/auth.py logout`: revoke the row if it exists and
is not yet revoked; always answer `{"message": "Logged out"}`. -/
def logout (s : Store) (tok : String) : Store × String :=
  match findRefreshToken s tok with
  | none => (s, "Logged out")
  | some rt =>
    if ¬ rt.revoked then
      ({ s with refresh_tokens := revokeByToken s.refresh_tokens tok },
       "Logged out")
    else (s, "Logged out")

/-- CPython `int(str)` digit part after the first digit: digits with
single underscores allowed between digits. -/
def pyDigits : List Char → Nat → Option Nat
  | [], acc => some acc
  | c :: rest, acc =>
    if c.isDigit then pyDigits rest (acc * 10 + (c.toNat - 48))
    else if c == '_' then
      match rest with
      | [] => none
      | d :: rest2 =>
        if d.isDigit then pyDigits rest2 (acc * 10 + (d.toNat - 48)) else none
    else none

/-- CPython `int(str)` digit part: a first digit then `pyDigits`. -/
def pyDigitPart (cs : List Char) : Option Nat :=
  match cs with
  | [] => none
  | d :: rest => if d.isDigit then pyDigits rest (d.toNat - 48) else none

/-- CPython `int(str)`: optional surrounding whitespace, optional sign,
then a digit sequence (underscores allowed between digits); `none` when
the string does not parse (Python raises `ValueError`). -/
def pyIntParse (s : String) : Option Int :=
  let cs :=
    ((s.toList.dropWhile Char.isWhitespace).reverse.dropWhile
      Char.isWhitespace).reverse
  match cs with
  | '+' :: rest => (pyDigitPart rest).map Int.ofNat
  | '-' :: rest => (pyDigitPart rest).map (fun n => -(Int.ofNat n))
  | _ => (pyDigitPart cs).map Int.ofNat

/-- `src/api/deps/auth.py get_current_user`: decode the bearer token,
check the `typ` claim, the presence of `sub`, parse `sub` as an int
(`int(sub)`), and resolve an active user. -/
def get_current_user (cfg : Settings) (s : Store) (credentials : Option Jwt)
    (now : Int) : Except ErrorResponse UserRec :=
  match credentials with
  | none => .error ⟨401, "Not authenticated"⟩
  | some token =>
    match decode_token cfg token now with
    | .error _ => .error ⟨401, "Invalid or expired token"⟩
    | .ok payload =>
      if payload.typ ≠ "access" then .error ⟨401, "Invalid token type"⟩
      else if payload.sub = "" then .error ⟨401, "Invalid token payload"⟩
      else
        match pyIntParse payload.sub with
        | none => .error ⟨401, "Invalid token subject"⟩
        | some user_id =>
          match getUserById s user_id with
          | none => .error ⟨401, "User not found or inactive"⟩
          | some user =>
            if ¬ user.is_active then
              .error ⟨401, "User not found or inactive"⟩
            else .ok user

/-! ### Example data used by witnesses and counterexamples -/

/-- Concrete settings for witnesses: 15-minute access ttl, 30-day
refresh ttl (the defaults of `src/settings.py`, in seconds). -/
def cfgEx : Settings := ⟨"secret", 900, 2592000⟩

/-- A concrete active user. -/
def userEx : UserRec := ⟨1, "user@x.com", hash_password "longenough1", UserRole.user, true⟩

/-- A live refresh token owned by `userEx`. -/
def rtActive : RefreshTokenRec := ⟨1, "tok", 1, 1000, false⟩

/-- The same token, already revoked. -/
def rtRevoked : RefreshTokenRec := ⟨1, "tok", 1, 1000, true⟩

/-- Store holding `userEx` and the live token. -/
def storeActive : Store := ⟨[userEx], [rtActive]⟩

/-- Store holding `userEx` and the revoked token. -/
def storeRevoked : Store := ⟨[userEx], [rtRevoked]⟩

/-- Store holding `userEx` and no refresh token. -/
def storeNoTok : Store := ⟨[userEx], []⟩

/-- The user a concrete successful registration creates. -/
def userNew : UserRec := ⟨2, "new@x.com", hash_password "longenough1", UserRole.user, true⟩

/-- The token pair that concrete registration returns. -/
def respNew : TokenPairResponse := _token_response cfgEx userNew "fresh" 0

/-- The store after that concrete registration. -/
def storeAfterRegister : Store :=
  (register cfgEx storeNoTok "new@x.com" "longenough1" 0 "fresh" 2 1).1

/-- A well-signed, unexpired access token whose subject is not a
decimal integer. -/
def jwtBadSub : Jwt := ⟨⟨"abc", "access", 0, 100, "user"⟩, "secret"⟩

/-- Revocation is preserved from store `s` to store `s2`: every revoked
token row of `s` still appears revoked (by token string) in `s2`. -/
def revokedPreserved (s s2 : Store) : Prop :=
  ∀ rt ∈ s.refresh_tokens, rt.revoked = true →
    ∃ rt2 ∈ s2.refresh_tokens, rt2.token = rt.token ∧ rt2.revoked = true

/-! ### Helper lemmas -/

theorem find?_token_eq_none {l : List RefreshTokenRec} {t : String}
    (h : t ∉ l.map (fun rt => rt.token)) :
    l.find? (fun rt => rt.token == t) = none := by
  rw [List.find?_eq_none]
  intro x hx hpx
  exact h (List.mem_map.mpr ⟨x, hx, by simpa using hpx⟩)

theorem revokeByToken_map_token (l : List RefreshTokenRec) (tok : String) :
    (revokeByToken l tok).map (fun rt => rt.token) = l.map (fun rt => rt.token) := by
  induction l with
  | nil => rfl
  | cons a l ih =>
    simp only [revokeByToken, List.map_cons] at ih ⊢
    rw [ih]
    congr 1
    by_cases h : a.token == tok
    · rw [if_pos h]
    · rw [if_neg h]

theorem find?_revokeByToken (l : List RefreshTokenRec) (tok : String) :
    (revokeByToken l tok).find? (fun rt => rt.token == tok)
      = (l.find? (fun rt => rt.token == tok)).map
          (fun rt => { rt with revoked := true }) := by
  induction l with
  | nil => rfl
  | cons a l ih =>
    simp only [revokeByToken, List.map_cons] at ih ⊢
    by_cases h : (a.token == tok) = true
    · rw [if_pos h, List.find?_cons, List.find?_cons]
      simp [h]
    · rw [if_neg h, List.find?_cons, List.find?_cons,
        show (a.token == tok) = false from by simpa using h]
      exact ih

theorem getUserById_id {s : Store} {uid : Int} {u : UserRec}
    (h : getUserById s uid = some u) : (u.id : Int) = uid := by
  have hp := List.find?_some h
  simpa using hp

theorem except_cases {α β : Type} (x : Except α β) :
    (∃ b, x = .ok b) ∨ (∃ a, x = .error a) := by
  cases x with
  | ok b => exact .inl ⟨b, rfl⟩
  | error a => exact .inr ⟨a, rfl⟩

theorem validate_eq_of_find_none (s : Store) (tok : String) (now : Int)
    (hf : findRefreshToken s tok = none) :
    validateRefreshToken s tok now = .error ⟨401, "Invalid refresh token"⟩ := by
  unfold validateRefreshToken
  rw [hf]

theorem validate_eq_of_revoked (s : Store) (tok : String) (now : Int)
    (rt : RefreshTokenRec) (hf : findRefreshToken s tok = some rt)
    (hrev : rt.revoked = true) :
    validateRefreshToken s tok now = .error ⟨401, "Refresh token revoked"⟩ := by
  unfold validateRefreshToken
  rw [hf]
  simp [hrev]

theorem validate_eq_of_expired (s : Store) (tok : String) (now : Int)
    (rt : RefreshTokenRec) (hf : findRefreshToken s tok = some rt)
    (hrev : rt.revoked = false) (hexp : rt.expires_at ≤ now) :
    validateRefreshToken s tok now = .error ⟨401, "Refresh token expired"⟩ := by
  unfold validateRefreshToken
  rw [hf]
  simp [hrev, hexp]

theorem validate_eq_of_live (s : Store) (tok : String) (now : Int)
    (rt : RefreshTokenRec) (hf : findRefreshToken s tok = some rt)
    (hrev : rt.revoked = false) (hexp : now < rt.expires_at) :
    validateRefreshToken s tok now = .ok rt := by
  unfold validateRefreshToken
  rw [hf]
  simp [hrev]
  omega

theorem validate_ok_elim (s : Store) (tok : String) (now : Int)
    (rt : RefreshTokenRec) (h : validateRefreshToken s tok now = .ok rt) :
    findRefreshToken s tok = some rt ∧ rt.revoked = false ∧
      now < rt.expires_at := by
  rcases Option.eq_none_or_eq_some (findRefreshToken s tok) with hf | ⟨rt0, hf⟩
  · rw [validate_eq_of_find_none s tok now hf] at h
    simp at h
  · rcases Bool.eq_false_or_eq_true rt0.revoked with hrev | hrev
    · rw [validate_eq_of_revoked s tok now rt0 hf hrev] at h
      simp at h
    · rcases le_or_lt rt0.expires_at now with hexp | hexp
      · rw [validate_eq_of_expired s tok now rt0 hf hrev hexp] at h
        simp at h
      · rw [validate_eq_of_live s tok now rt0 hf hrev hexp] at h
        injection h with h2
        subst h2
        exact ⟨hf, hrev, hexp⟩

theorem validate_error_401 (s : Store) (tok : String) (now : Int)
    (e : ErrorResponse) (h : validateRefreshToken s tok now = .error e) :
    e.status_code = 401 := by
  rcases Option.eq_none_or_eq_some (findRefreshToken s tok) with hf | ⟨rt0, hf⟩
  · rw [validate_eq_of_find_none s tok now hf] at h
    injection h with h2
    rw [← h2]
  · rcases Bool.eq_false_or_eq_true rt0.revoked with hrev | hrev
    · rw [validate_eq_of_revoked s tok now rt0 hf hrev] at h
      injection h with h2
      rw [← h2]
    · rcases le_or_lt rt0.expires_at now with hexp | hexp
      · rw [validate_eq_of_expired s tok now rt0 hf hrev hexp] at h
        injection h with h2
        rw [← h2]
      · rw [validate_eq_of_live s tok now rt0 hf hrev hexp] at h
        simp at h

theorem refresh_eq_err_validate (cfg : Settings) (s : Store) (presented : String)
    (now : Int) (freshTok : String) (newRtId : Nat) (e : ErrorResponse)
    (hv : validateRefreshToken s presented now = .error e) :
    refresh cfg s presented now freshTok newRtId = (s, .error e) := by
  unfold refresh
  rw [hv]

theorem refresh_eq_err_nouser (cfg : Settings) (s : Store) (presented : String)
    (now : Int) (freshTok : String) (newRtId : Nat) (rt : RefreshTokenRec)
    (hv : validateRefreshToken s presented now = .ok rt)
    (hu : getUserById s (rt.user_id : Int) = none) :
    refresh cfg s presented now freshTok newRtId
      = (s, .error ⟨401, "User not found or inactive"⟩) := by
  unfold refresh
  simp only [hv, hu]

theorem refresh_eq_err_inactive (cfg : Settings) (s : Store) (presented : String)
    (now : Int) (freshTok : String) (newRtId : Nat) (rt : RefreshTokenRec)
    (user : UserRec) (hv : validateRefreshToken s presented now = .ok rt)
    (hu : getUserById s (rt.user_id : Int) = some user)
    (ha : user.is_active = false) :
    refresh cfg s presented now freshTok newRtId
      = (s, .error ⟨401, "User not found or inactive"⟩) := by
  unfold refresh
  simp only [hv, hu]
  simp [ha]

theorem refresh_eq_ok (cfg : Settings) (s : Store) (presented : String)
    (now : Int) (freshTok : String) (newRtId : Nat) (rt : RefreshTokenRec)
    (user : UserRec) (hv : validateRefreshToken s presented now = .ok rt)
    (hu : getUserById s (rt.user_id : Int) = some user)
    (ha : user.is_active = true) :
    refresh cfg s presented now freshTok newRtId =
      (⟨s.users, revokeByToken s.refresh_tokens presented ++
          [⟨newRtId, freshTok, user.id, now + cfg.refreshTtl, false⟩]⟩,
       .ok (_token_response cfg user freshTok now)) := by
  unfold refresh
  simp only [hv, hu]
  simp [ha, _issue_refresh_token]

theorem refresh_ok_shape (cfg : Settings) (s : Store) (presented : String)
    (now : Int) (freshTok : String) (newRtId : Nat) (resp : TokenPairResponse)
    (h : (refresh cfg s presented now freshTok newRtId).2 = .ok resp) :
    ∃ rt user, validateRefreshToken s presented now = .ok rt ∧
      getUserById s (rt.user_id : Int) = some user ∧ user.is_active = true ∧
      user.id = rt.user_id ∧
      refresh cfg s presented now freshTok newRtId =
        (⟨s.users, revokeByToken s.refresh_tokens presented ++
            [⟨newRtId, freshTok, user.id, now + cfg.refreshTtl, false⟩]⟩,
         .ok (_token_response cfg user freshTok now)) := by
  rcases except_cases (validateRefreshToken s presented now) with ⟨rt, hv⟩ | ⟨e, hv⟩
  · rcases Option.eq_none_or_eq_some (getUserById s (rt.user_id : Int)) with
      hu | ⟨user, hu⟩
    · rw [refresh_eq_err_nouser cfg s presented now freshTok newRtId rt hv hu] at h
      simp at h
    · rcases Bool.eq_false_or_eq_true user.is_active with ha | ha
      · have hid : user.id = rt.user_id := by
          have := getUserById_id hu
          exact_mod_cast this
        exact ⟨rt, user, hv, hu, ha, hid,
          refresh_eq_ok cfg s presented now freshTok newRtId rt user hv hu ha⟩
      · rw [refresh_eq_err_inactive cfg s presented now freshTok newRtId rt
          user hv hu ha] at h
        simp at h
  · rw [refresh_eq_err_validate cfg s presented now freshTok newRtId e hv] at h
    simp at h

theorem refresh_error_shape (cfg : Settings) (s : Store) (presented : String)
    (now : Int) (freshTok : String) (newRtId : Nat) (e : ErrorResponse)
    (h : (refresh cfg s presented now freshTok newRtId).2 = .error e) :
    (refresh cfg s presented now freshTok newRtId).1 = s ∧
      e.status_code = 401 := by
  rcases except_cases (validateRefreshToken s presented now) with ⟨rt, hv⟩ | ⟨e0, hv⟩
  · rcases Option.eq_none_or_eq_some (getUserById s (rt.user_id : Int)) with
      hu | ⟨user, hu⟩
    · rw [refresh_eq_err_nouser cfg s presented now freshTok newRtId rt hv hu] at h ⊢
      injection h with h2
      exact ⟨rfl, by rw [← h2]⟩
    · rcases Bool.eq_false_or_eq_true user.is_active with ha | ha
      · rw [refresh_eq_ok cfg s presented now freshTok newRtId rt user hv hu ha] at h
        simp at h
      · rw [refresh_eq_err_inactive cfg s presented now freshTok newRtId rt
          user hv hu ha] at h ⊢
        injection h with h2
        exact ⟨rfl, by rw [← h2]⟩
  · rw [refresh_eq_err_validate cfg s presented now freshTok newRtId e0 hv] at h ⊢
    injection h with h2
    refine ⟨rfl, ?_⟩
    rw [← h2]
    exact validate_error_401 s presented now e0 hv

theorem register_eq_dup (cfg : Settings) (s : Store) (email password : String)
    (now : Int) (freshTok : String) (uid rid : Nat) (u0 : UserRec)
    (hsome : _get_user_by_email s email = some u0) :
    register cfg s email password now freshTok uid rid
      = (s, .error ⟨409, "Email already registered"⟩) := by
  unfold register
  simp only [hsome]

theorem register_eq_ok (cfg : Settings) (s : Store) (email password : String)
    (now : Int) (freshTok : String) (uid rid : Nat)
    (hnone : _get_user_by_email s email = none) :
    register cfg s email password now freshTok uid rid =
      (⟨s.users ++ [⟨uid, pyLower email, hash_password password, UserRole.user, true⟩],
        s.refresh_tokens ++ [⟨rid, freshTok, uid, now + cfg.refreshTtl, false⟩]⟩,
       .ok (_token_response cfg
         ⟨uid, pyLower email, hash_password password, UserRole.user, true⟩
         freshTok now)) := by
  unfold register
  simp only [hnone]
  simp [_issue_refresh_token]

theorem login_eq_nouser (cfg : Settings) (s : Store) (email password : String)
    (now : Int) (freshTok : String) (rid : Nat)
    (hf : _get_user_by_email s (pyLower email) = none) :
    login cfg s email password now freshTok rid
      = (s, .error ⟨401, "Invalid credentials"⟩) := by
  unfold login
  simp only [hf]

theorem login_eq_inactive (cfg : Settings) (s : Store) (email password : String)
    (now : Int) (freshTok : String) (rid : Nat) (u : UserRec)
    (hf : _get_user_by_email s (pyLower email) = some u)
    (ha : u.is_active = false) :
    login cfg s email password now freshTok rid
      = (s, .error ⟨401, "Invalid credentials"⟩) := by
  unfold login
  simp only [hf]
  simp [ha]

theorem login_eq_badpw (cfg : Settings) (s : Store) (email password : String)
    (now : Int) (freshTok : String) (rid : Nat) (u : UserRec)
    (hf : _get_user_by_email s (pyLower email) = some u)
    (ha : u.is_active = true)
    (hp : verify_password password u.password_hash = false) :
    login cfg s email password now freshTok rid
      = (s, .error ⟨401, "Invalid credentials"⟩) := by
  unfold login
  simp only [hf]
  simp [ha, hp]

theorem login_eq_ok (cfg : Settings) (s : Store) (email password : String)
    (now : Int) (freshTok : String) (rid : Nat) (u : UserRec)
    (hf : _get_user_by_email s (pyLower email) = some u)
    (ha : u.is_active = true)
    (hp : verify_password password u.password_hash = true) :
    login cfg s email password now freshTok rid
      = (⟨s.users, s.refresh_tokens ++ [⟨rid, freshTok, u.id, now + cfg.refreshTtl, false⟩]⟩,
         .ok (_token_response cfg u freshTok now)) := by
  unfold login
  simp only [hf]
  simp [ha, hp, _issue_refresh_token]

theorem logout_eq_none (s : Store) (tok : String)
    (hf : findRefreshToken s tok = none) :
    logout s tok = (s, "Logged out") := by
  unfold logout
  simp only [hf]

theorem logout_eq_revoked (s : Store) (tok : String) (rt : RefreshTokenRec)
    (hf : findRefreshToken s tok = some rt) (hrev : rt.revoked = true) :
    logout s tok = (s, "Logged out") := by
  unfold logout
  simp only [hf]
  simp [hrev]

theorem logout_eq_live (s : Store) (tok : String) (rt : RefreshTokenRec)
    (hf : findRefreshToken s tok = some rt) (hrev : rt.revoked = false) :
    logout s tok
      = (⟨s.users, revokeByToken s.refresh_tokens tok⟩, "Logged out") := by
  unfold logout
  simp only [hf]
  simp [hrev]

theorem refresh_ok_find_presented (cfg : Settings) (s : Store)
    (presented : String) (now : Int) (freshTok : String) (newRtId : Nat)
    (resp : TokenPairResponse)
    (h : (refresh cfg s presented now freshTok newRtId).2 = .ok resp) :
    ∃ rt, findRefreshToken s presented = some rt ∧
      findRefreshToken (refresh cfg s presented now freshTok newRtId).1 presented
        = some { rt with revoked := true } := by
  obtain ⟨rt, user, hv, hu, ha, hid, heq⟩ :=
    refresh_ok_shape cfg s presented now freshTok newRtId resp h
  obtain ⟨hfind, hrev, hexp⟩ := validate_ok_elim s presented now rt hv
  refine ⟨rt, hfind, ?_⟩
  rw [heq]
  unfold findRefreshToken at hfind ⊢
  simp [List.find?_append, find?_revokeByToken, hfind]

theorem refresh_ok_find_fresh (cfg : Settings) (s : Store)
    (presented : String) (now : Int) (freshTok : String) (newRtId : Nat)
    (resp : TokenPairResponse) (hfresh : freshTok ∉ s.tokenStrings)
    (h : (refresh cfg s presented now freshTok newRtId).2 = .ok resp) :
    ∃ rt, findRefreshToken s presented = some rt ∧
      findRefreshToken (refresh cfg s presented now freshTok newRtId).1 freshTok
        = some ⟨newRtId, freshTok, rt.user_id, now + cfg.refreshTtl, false⟩ := by
  obtain ⟨rt, user, hv, hu, ha, hid, heq⟩ :=
    refresh_ok_shape cfg s presented now freshTok newRtId resp h
  obtain ⟨hfind, hrev, hexp⟩ := validate_ok_elim s presented now rt hv
  refine ⟨rt, hfind, ?_⟩
  rw [heq]
  have hnone : (revokeByToken s.refresh_tokens presented).find?
      (fun rt2 => rt2.token == freshTok) = none := by
    apply find?_token_eq_none
    rw [revokeByToken_map_token]
    exact hfresh
  unfold findRefreshToken
  simp [List.find?_append, hnone, hid]

/-- C1: a `/refresh` call either fails validation and leaves the store
completely unchanged (no token revoked, none created), or passes every
check — token present, unrevoked, unexpired, owner active — and then,
within the single transaction, revokes the presented token row and
appends exactly one new unrevoked token row for the same user. -/
theorem refresh_transactional (cfg : Settings) (s : Store) (presented : String)
    (now : Int) (freshTok : String) (newRtId : Nat)
    (hfresh : freshTok ∉ s.tokenStrings) :
    (∀ e, (refresh cfg s presented now freshTok newRtId).2 = .error e →
      (refresh cfg s presented now freshTok newRtId).1 = s) ∧
    (∀ resp, (refresh cfg s presented now freshTok newRtId).2 = .ok resp →
      ∃ rt user,
        findRefreshToken s presented = some rt ∧ rt.revoked = false ∧
        now < rt.expires_at ∧
        getUserById s (rt.user_id : Int) = some user ∧ user.is_active = true ∧
        (refresh cfg s presented now freshTok newRtId).1.users = s.users ∧
        (refresh cfg s presented now freshTok newRtId).1.refresh_tokens
          = revokeByToken s.refresh_tokens presented ++
              [⟨newRtId, freshTok, rt.user_id, now + cfg.refreshTtl, false⟩] ∧
        findRefreshToken (refresh cfg s presented now freshTok newRtId).1 presented
          = some { rt with revoked := true } ∧
        findRefreshToken (refresh cfg s presented now freshTok newRtId).1 freshTok
          = some ⟨newRtId, freshTok, rt.user_id, now + cfg.refreshTtl, false⟩) := by
  constructor
  · intro e he
    exact (refresh_error_shape cfg s presented now freshTok newRtId e he).1
  · intro resp h
    obtain ⟨rt, user, hv, hu, ha, hid, heq⟩ :=
      refresh_ok_shape cfg s presented now freshTok newRtId resp h
    obtain ⟨hfind, hrev, hexp⟩ := validate_ok_elim s presented now rt hv
    obtain ⟨rt1, hfind1, hfp⟩ :=
      refresh_ok_find_presented cfg s presented now freshTok newRtId resp h
    obtain ⟨rt2, hfind2, hff⟩ :=
      refresh_ok_find_fresh cfg s presented now freshTok newRtId resp hfresh h
    rw [hfind] at hfind1 hfind2
    injection hfind1 with e1
    injection hfind2 with e2
    rw [← e1] at hfp
    rw [← e2] at hff
    refine ⟨rt, user, hfind, hrev, hexp, hu, ha, ?_, ?_, hfp, hff⟩
    · rw [heq]
    · rw [heq, hid]

/-- C1 witness: rotating the live token of `storeActive` revokes it and
appends the fresh token row. -/
theorem refresh_transactional_witness :
    (refresh cfgEx storeActive "tok" 0 "fresh" 2).1.refresh_tokens
      = revokeByToken storeActive.refresh_tokens "tok" ++
          [⟨2, "fresh", 1, 0 + cfgEx.refreshTtl, false⟩] := by
  have h := refresh_transactional cfgEx storeActive "tok" 0 "fresh" 2 (by decide)
  obtain ⟨rt, user, hfind, hrev, hexp, hu, ha, hus, htk, hfp, hff⟩ :=
    h.2 (_token_response cfgEx userEx "fresh" 0) (by decide)
  have h0 : findRefreshToken storeActive "tok" = some rtActive := by decide
  rw [h0] at hfind
  injection hfind with he
  rw [← he] at htk
  exact htk

/-- C2 counterexample: two `/refresh` calls failing for different
internal reasons (token absent vs token revoked) return observably
different responses — the `detail` strings differ, so the API caller
can distinguish NotFound from Revoked. -/
theorem refresh_error_details_differ :
    (refresh cfgEx storeNoTok "tok" 0 "fresh" 2).2
        = .error ⟨401, "Invalid refresh token"⟩ ∧
    (refresh cfgEx storeRevoked "tok" 0 "fresh" 2).2
        = .error ⟨401, "Refresh token revoked"⟩ ∧
    ((⟨401, "Invalid refresh token"⟩ : ErrorResponse)
        ≠ ⟨401, "Refresh token revoked"⟩) :=
  ⟨by decide, by decide, by decide⟩

/-- C2 amended: every `/refresh` validation failure carries the same
generic 401 status code, but the `detail` strings differ per internal
reason, so indistinguishability holds only at the status-code level. -/
theorem refresh_failures_all_401 (cfg : Settings) (s : Store)
    (presented : String) (now : Int) (freshTok : String) (newRtId : Nat) :
    ∀ e, (refresh cfg s presented now freshTok newRtId).2 = .error e →
      e.status_code = 401 :=
  fun e h => (refresh_error_shape cfg s presented now freshTok newRtId e h).2

/-- C2 amended witness: the NotFound failure is a 401. -/
theorem refresh_failures_all_401_witness :
    (⟨401, "Invalid refresh token"⟩ : ErrorResponse).status_code = 401 :=
  refresh_failures_all_401 cfgEx storeNoTok "tok" 0 "fresh" 2
    ⟨401, "Invalid refresh token"⟩ (by decide)

/-- C4: refresh-token validation succeeds with the stored row (whose
`user_id` is the owner) iff the presented string matches a row with
`revoked = false` and `expires_at > now`; otherwise it fails with the
NotFound, Revoked and Expired signals, the checks applied in that
order (a revoked *and* expired token reports Revoked). -/
theorem validateRefreshToken_spec (s : Store) (tok : String) (now : Int) :
    (findRefreshToken s tok = none →
      validateRefreshToken s tok now = .error ⟨401, "Invalid refresh token"⟩) ∧
    (∀ rt, findRefreshToken s tok = some rt →
      (rt.revoked = true →
        validateRefreshToken s tok now = .error ⟨401, "Refresh token revoked"⟩) ∧
      (rt.revoked = false → rt.expires_at ≤ now →
        validateRefreshToken s tok now = .error ⟨401, "Refresh token expired"⟩) ∧
      (rt.revoked = false → now < rt.expires_at →
        validateRefreshToken s tok now = .ok rt)) ∧
    (∀ rt, validateRefreshToken s tok now = .ok rt →
      findRefreshToken s tok = some rt ∧ rt.revoked = false ∧
        now < rt.expires_at) := by
  refine ⟨validate_eq_of_find_none s tok now, ?_, validate_ok_elim s tok now⟩
  intro rt hf
  exact ⟨validate_eq_of_revoked s tok now rt hf,
    validate_eq_of_expired s tok now rt hf,
    validate_eq_of_live s tok now rt hf⟩

/-- C4 witness: the live token of `storeActive` validates to its row. -/
theorem validateRefreshToken_spec_witness :
    validateRefreshToken storeActive "tok" 0 = .ok rtActive := by
  have h := validateRefreshToken_spec storeActive "tok" 0
  exact (h.2.1 rtActive (by decide)).2.2 (by decide) (by decide)

/-- C5: once a rotation of `presented` succeeds, validating `presented`
against the resulting store fails at every later time: the row was
revoked by the rotation. -/
theorem rotated_token_never_valid (cfg : Settings) (s : Store)
    (presented : String) (now : Int) (freshTok : String) (newRtId : Nat) :
    ∀ resp, (refresh cfg s presented now freshTok newRtId).2 = .ok resp →
      ∀ later, validateRefreshToken
          (refresh cfg s presented now freshTok newRtId).1 presented later
        = .error ⟨401, "Refresh token revoked"⟩ := by
  intro resp h later
  obtain ⟨rt, hfind, hfp⟩ :=
    refresh_ok_find_presented cfg s presented now freshTok newRtId resp h
  exact validate_eq_of_revoked _ presented later _ hfp rfl

/-- C5 witness: after rotating the live token, validating it again at a
later time reports it revoked. -/
theorem rotated_token_never_valid_witness :
    validateRefreshToken (refresh cfgEx storeActive "tok" 0 "fresh" 2).1
        "tok" 500
      = .error ⟨401, "Refresh token revoked"⟩ :=
  rotated_token_never_valid cfgEx storeActive "tok" 0 "fresh" 2
    (_token_response cfgEx userEx "fresh" 0) (by decide) 500

/-- C3: the duplicate-email check misses a case-variant of a stored
email. `storeNoTok` holds the lowercased email `user@x.com`; the
payload `User@x.com` differs only in local-part case. `register` does
*not* answer 409 (the exact-match lookup finds nothing) and inserts a
second user whose stored (lowercased) email duplicates the existing
one, which the unique index on `users.email` would reject at commit. -/
theorem register_duplicate_check_misses_case :
    (register cfgEx storeNoTok "User@x.com" "longenough1" 0 "fresh" 2 1).2
        ≠ .error ⟨409, "Email already registered"⟩ ∧
    ((register cfgEx storeNoTok "User@x.com" "longenough1" 0 "fresh" 2 1).1.users.map
        (fun u => u.email)) = ["user@x.com", "user@x.com"] :=
  ⟨by decide, by decide⟩

/-- C6: logout always answers the success message; on a nonexistent or
already-revoked token it leaves the store unchanged; a second logout of
the same token is a no-op; and after logout the token never validates
again at any time. -/
theorem logout_idempotent (s : Store) (tok : String) :
    (logout s tok).2 = "Logged out" ∧
    (findRefreshToken s tok = none → (logout s tok).1 = s) ∧
    (∀ rt, findRefreshToken s tok = some rt → rt.revoked = true →
      (logout s tok).1 = s) ∧
    logout (logout s tok).1 tok = ((logout s tok).1, "Logged out") ∧
    (∀ later, ∃ e, validateRefreshToken (logout s tok).1 tok later
      = .error e) := by
  rcases Option.eq_none_or_eq_some (findRefreshToken s tok) with hf | ⟨rt, hf⟩
  · rw [logout_eq_none s tok hf]
    refine ⟨rfl, fun _ => rfl, fun rt h _ => rfl, logout_eq_none s tok hf, ?_⟩
    intro later
    exact ⟨_, validate_eq_of_find_none s tok later hf⟩
  · rcases Bool.eq_false_or_eq_true rt.revoked with hrev | hrev
    · rw [logout_eq_revoked s tok rt hf hrev]
      refine ⟨rfl, ?_, fun rt2 h2 _ => rfl,
        logout_eq_revoked s tok rt hf hrev, ?_⟩
      · intro h2
        rw [hf] at h2
      · intro later
        exact ⟨_, validate_eq_of_revoked s tok later rt hf hrev⟩
    · rw [logout_eq_live s tok rt hf hrev]
      have hf2 : findRefreshToken (⟨s.users, revokeByToken s.refresh_tokens tok⟩ : Store) tok
          = some { rt with revoked := true } := by
        unfold findRefreshToken at hf ⊢
        simp [find?_revokeByToken, hf]
      refine ⟨rfl, ?_, ?_, ?_, ?_⟩
      · intro h2
        rw [hf] at h2
        exact absurd h2 (by simp)
      · intro rt2 h2 hrev2
        rw [hf] at h2
        injection h2 with h3
        rw [← h3] at hrev2
        rw [hrev] at hrev2
        cases hrev2
      · exact logout_eq_revoked _ tok { rt with revoked := true } hf2 rfl
      · intro later
        exact ⟨_, validate_eq_of_revoked _ tok later _ hf2 rfl⟩

/-- C6 witness: logging out an already-revoked token is a no-op that
still reports success. -/
theorem logout_idempotent_witness :
    (logout storeRevoked "tok").1 = storeRevoked ∧
    (logout storeRevoked "tok").2 = "Logged out" := by
  have h := logout_idempotent storeRevoked "tok"
  exact ⟨h.2.2.1 rtRevoked (by decide) (by decide), h.1⟩

/-- C7: a successful registration returns an access token that decodes
under the configured secret to a payload whose subject is the decimal
string of the new user id with type claim `access`, and a refresh token
present in the resulting store, currently valid, owned by that same
user id. -/
theorem register_token_bindings (cfg : Settings) (s : Store)
    (email password : String) (now : Int) (freshTok : String)
    (uid rid : Nat) (hfresh : freshTok ∉ s.tokenStrings)
    (haccess : 0 < cfg.accessTtl) (hrefresh : 0 < cfg.refreshTtl) :
    ∀ s2 resp, register cfg s email password now freshTok uid rid
        = (s2, .ok resp) →
      ∃ payload, decode_token cfg resp.access_token now = .ok payload ∧
        payload.sub = toString uid ∧ payload.typ = "access" ∧
        ∃ rt, validateRefreshToken s2 resp.refresh_token now = .ok rt ∧
          rt.user_id = uid := by
  intro s2 resp h
  rcases Option.eq_none_or_eq_some (_get_user_by_email s email) with
    hnone | ⟨u0, hsome⟩
  · rw [register_eq_ok cfg s email password now freshTok uid rid hnone] at h
    obtain ⟨h1, h2⟩ := Prod.ext_iff.mp h
    injection h2 with h3
    subst h1
    rw [← h3]
    have hdec : decode_token cfg
        (create_access_token cfg (toString uid) "user" now) now
        = .ok ⟨toString uid, "access", now, now + cfg.accessTtl, "user"⟩ := by
      unfold decode_token create_access_token
      rw [if_neg (by simp), if_neg (by simp; omega)]
    have hval : validateRefreshToken
        (⟨s.users ++ [⟨uid, pyLower email, hash_password password, UserRole.user, true⟩],
          s.refresh_tokens ++ [⟨rid, freshTok, uid, now + cfg.refreshTtl, false⟩]⟩ : Store)
        freshTok now = .ok ⟨rid, freshTok, uid, now + cfg.refreshTtl, false⟩ := by
      apply validate_eq_of_live
      · show List.find? (fun rt : RefreshTokenRec => rt.token == freshTok)
          (s.refresh_tokens ++
            [(⟨rid, freshTok, uid, now + cfg.refreshTtl, false⟩ : RefreshTokenRec)])
          = some ⟨rid, freshTok, uid, now + cfg.refreshTtl, false⟩
        rw [List.find?_append, find?_token_eq_none hfresh]
        simp
      · rfl
      · show now < now + cfg.refreshTtl
        omega
    exact ⟨⟨toString uid, "access", now, now + cfg.accessTtl, "user"⟩, hdec,
      rfl, rfl, ⟨rid, freshTok, uid, now + cfg.refreshTtl, false⟩, hval, rfl⟩
  · rw [register_eq_dup cfg s email password now freshTok uid rid u0 hsome] at h
    obtain ⟨h1, h2⟩ := Prod.ext_iff.mp h
    cases h2

/-- C7 witness: the concrete registration of `new@x.com` yields tokens
bound to the new user id 2. -/
theorem register_token_bindings_witness :
    ∃ payload, decode_token cfgEx respNew.access_token 0 = .ok payload ∧
      payload.sub = toString 2 ∧ payload.typ = "access" ∧
      ∃ rt, validateRefreshToken storeAfterRegister respNew.refresh_token 0
          = .ok rt ∧ rt.user_id = 2 := by
  have h := register_token_bindings cfgEx storeNoTok "new@x.com" "longenough1"
    0 "fresh" 2 1 (by decide) (by decide) (by decide)
  exact h storeAfterRegister respNew (by decide)

theorem revokedPreserved_of_eq (s s2 : Store)
    (h : s2.refresh_tokens = s.refresh_tokens) : revokedPreserved s s2 := by
  intro rt hmem hrev
  exact ⟨rt, by rw [h]; exact hmem, rfl, hrev⟩

theorem revokedPreserved_of_append (s s2 : Store) (l : List RefreshTokenRec)
    (h : s2.refresh_tokens = s.refresh_tokens ++ l) : revokedPreserved s s2 := by
  intro rt hmem hrev
  exact ⟨rt, by rw [h]; exact List.mem_append_left l hmem, rfl, hrev⟩

theorem revokedPreserved_of_revoke_append (s s2 : Store) (tok : String)
    (l : List RefreshTokenRec)
    (h : s2.refresh_tokens = revokeByToken s.refresh_tokens tok ++ l) :
    revokedPreserved s s2 := by
  intro rt hmem hrev
  refine ⟨if rt.token == tok then { rt with revoked := true } else rt,
    ?_, ?_, ?_⟩
  · rw [h]
    apply List.mem_append_left
    exact List.mem_map_of_mem
      (fun rt => if rt.token == tok then { rt with revoked := true } else rt)
      hmem
  · by_cases hc : rt.token == tok
    · rw [if_pos hc]
    · rw [if_neg hc]
  · by_cases hc : rt.token == tok
    · rw [if_pos hc]
    · rw [if_neg hc]
      exact hrev

/-- C8: for every operation of the module — register, login, refresh,
logout — a refresh-token row that is revoked before the operation is
still revoked (under the same token string) afterwards: no operation
ever resets `revoked` to false. -/
theorem revoked_is_terminal (cfg : Settings) (s : Store)
    (email password tok : String) (now : Int) (freshTok : String)
    (uid rid : Nat) :
    revokedPreserved s (register cfg s email password now freshTok uid rid).1 ∧
    revokedPreserved s (login cfg s email password now freshTok rid).1 ∧
    revokedPreserved s (refresh cfg s tok now freshTok rid).1 ∧
    revokedPreserved s (logout s tok).1 := by
  refine ⟨?_, ?_, ?_, ?_⟩
  · rcases Option.eq_none_or_eq_some (_get_user_by_email s email) with
      hn | ⟨u0, hs⟩
    · rw [register_eq_ok cfg s email password now freshTok uid rid hn]
      exact revokedPreserved_of_append s _
        [⟨rid, freshTok, uid, now + cfg.refreshTtl, false⟩] rfl
    · rw [register_eq_dup cfg s email password now freshTok uid rid u0 hs]
      exact revokedPreserved_of_eq s s rfl
  · rcases Option.eq_none_or_eq_some (_get_user_by_email s (pyLower email)) with
      hn | ⟨u, hsu⟩
    · rw [login_eq_nouser cfg s email password now freshTok rid hn]
      exact revokedPreserved_of_eq s s rfl
    · rcases Bool.eq_false_or_eq_true u.is_active with ha | ha
      · rcases Bool.eq_false_or_eq_true
          (verify_password password u.password_hash) with hp | hp
        · rw [login_eq_ok cfg s email password now freshTok rid u hsu ha hp]
          exact revokedPreserved_of_append s _
            [⟨rid, freshTok, u.id, now + cfg.refreshTtl, false⟩] rfl
        · rw [login_eq_badpw cfg s email password now freshTok rid u hsu ha hp]
          exact revokedPreserved_of_eq s s rfl
      · rw [login_eq_inactive cfg s email password now freshTok rid u hsu ha]
        exact revokedPreserved_of_eq s s rfl
  · rcases except_cases ((refresh cfg s tok now freshTok rid).2) with
      ⟨resp, hr⟩ | ⟨e, hr⟩
    · obtain ⟨rt, user, hv, hu, hac, hid, heq⟩ :=
        refresh_ok_shape cfg s tok now freshTok rid resp hr
      rw [heq]
      exact revokedPreserved_of_revoke_append s _ tok
        [⟨rid, freshTok, user.id, now + cfg.refreshTtl, false⟩] rfl
    · apply revokedPreserved_of_eq
      rw [(refresh_error_shape cfg s tok now freshTok rid e hr).1]
  · rcases Option.eq_none_or_eq_some (findRefreshToken s tok) with hf | ⟨rt, hf⟩
    · rw [logout_eq_none s tok hf]
      exact revokedPreserved_of_eq s s rfl
    · rcases Bool.eq_false_or_eq_true rt.revoked with hrev | hrev
      · rw [logout_eq_revoked s tok rt hf hrev]
        exact revokedPreserved_of_eq s s rfl
      · rw [logout_eq_live s tok rt hf hrev]
        apply revokedPreserved_of_revoke_append s _ tok []
        simp

/-- C8 witness: the revoked token of `storeRevoked` is still revoked
after logging out an unrelated token. -/
theorem revoked_is_terminal_witness :
    ∃ rt2 ∈ ((logout storeRevoked "other").1).refresh_tokens,
      rt2.token = rtRevoked.token ∧ rt2.revoked = true := by
  have h := revoked_is_terminal cfgEx storeRevoked "a@x.com" "pw123456"
    "other" 0 "fresh" 7 8
  exact h.2.2.2 rtRevoked (by decide) (by decide)

/-- C9: under a valid signature, the `access` type claim and an
unexpired token, `get_current_user` still answers 401 whenever the
`sub` claim does not parse as an integer (Python `int(sub)` raising
`ValueError`), and it can only return a user when `sub` parses to that
user's id. -/
theorem get_current_user_requires_int_sub (cfg : Settings) (s : Store)
    (t : Jwt) (now : Int) (hsig : t.secret = cfg.jwt_secret)
    (htyp : t.payload.typ = "access") (hexp : now < t.payload.exp) :
    (pyIntParse t.payload.sub = none →
      ∃ d, get_current_user cfg s (some t) now = .error ⟨401, d⟩) ∧
    (∀ u, get_current_user cfg s (some t) now = .ok u →
      pyIntParse t.payload.sub = some ((u.id : Nat) : Int)) := by
  have hdec : decode_token cfg t now = .ok t.payload := by
    unfold decode_token
    rw [if_neg (by simp [hsig]), if_neg (by omega)]
  constructor
  · intro hparse
    by_cases hsub0 : t.payload.sub = ""
    · refine ⟨"Invalid token payload", ?_⟩
      unfold get_current_user
      simp only [hdec]
      rw [if_neg (by simp [htyp]), if_pos hsub0]
    · refine ⟨"Invalid token subject", ?_⟩
      unfold get_current_user
      simp only [hdec]
      rw [if_neg (by simp [htyp]), if_neg hsub0]
      simp only [hparse]
  · intro u hu
    unfold get_current_user at hu
    simp only [hdec] at hu
    rw [if_neg (by simp [htyp])] at hu
    by_cases hsub0 : t.payload.sub = ""
    · rw [if_pos hsub0] at hu
      exact absurd hu (by simp)
    · rw [if_neg hsub0] at hu
      rcases Option.eq_none_or_eq_some (pyIntParse t.payload.sub) with
        hp | ⟨i, hp⟩
      · simp only [hp] at hu
        exact absurd hu (by simp)
      · simp only [hp] at hu
        rcases Option.eq_none_or_eq_some (getUserById s i) with
          hg | ⟨user, hg⟩
        · simp only [hg] at hu
          exact absurd hu (by simp)
        · simp only [hg] at hu
          rcases Bool.eq_false_or_eq_true user.is_active with ha | ha
          · simp only [ha] at hu
            simp at hu
            subst hu
            rw [hp, ← getUserById_id hg]
          · simp only [ha] at hu
            simp at hu

/-- C9 witness: a well-signed unexpired access token with subject
`abc` is rejected with a 401. -/
theorem get_current_user_requires_int_sub_witness :
    ∃ d, get_current_user cfgEx storeNoTok (some jwtBadSub) 0
      = .error ⟨401, d⟩ := by
  have h := get_current_user_requires_int_sub cfgEx storeNoTok jwtBadSub 0
    rfl rfl (by decide)
  exact h.1 (by decide)

/-- C10: a successful registration appends exactly one user row, and it
has role `user` and `is_active = true`, whatever the request payload;
the response also reports role `user`. -/
theorem register_creates_standard_user (cfg : Settings) (s : Store)
    (email password : String) (now : Int) (freshTok : String)
    (uid rid : Nat) :
    ∀ s2 resp, register cfg s email password now freshTok uid rid
        = (s2, .ok resp) →
      ∃ u, s2.users = s.users ++ [u] ∧ u.id = uid ∧ u.role = UserRole.user ∧
        u.is_active = true ∧ resp.user.role = "user" := by
  intro s2 resp h
  rcases Option.eq_none_or_eq_some (_get_user_by_email s email) with
    hn | ⟨u0, hs⟩
  · rw [register_eq_ok cfg s email password now freshTok uid rid hn] at h
    obtain ⟨h1, h2⟩ := Prod.ext_iff.mp h
    injection h2 with h3
    subst h1
    rw [← h3]
    exact ⟨⟨uid, pyLower email, hash_password password, UserRole.user, true⟩,
      rfl, rfl, rfl, rfl, rfl⟩
  · rw [register_eq_dup cfg s email password now freshTok uid rid u0 hs] at h
    obtain ⟨h1, h2⟩ := Prod.ext_iff.mp h
    cases h2

/-- C10 witness: the concrete registration appends user id 2 with role
`user`, active. -/
theorem register_creates_standard_user_witness :
    ∃ u, storeAfterRegister.users = storeNoTok.users ++ [u] ∧ u.id = 2 ∧
      u.role = UserRole.user ∧ u.is_active = true ∧
      respNew.user.role = "user" := by
  have h := register_creates_standard_user cfgEx storeNoTok "new@x.com"
    "longenough1" 0 "fresh" 2 1
  exact h storeAfterRegister respNew (by decide)

end StreamView
